import Mathlib

/-
Verification development for the ConfidentialRiskAssessment contract
(contracts/ConfidentialRiskAssessment.sol).

Modelling conventions:
* EVM addresses and principals are naturals (`Address`).
* Encrypted handles (euint8/euint16/euint32) are opaque references managed by
  the external FHE subsystem; we model a handle by the plaintext value it
  carries, since the contract never computes on handles and the claims only
  concern which handle is stored where.
* Solidity mappings are total functions with the Solidity default value.
* Every state-mutating entry point is a pure function
  `ContractState -> Except ContractError (ContractState x List Event)`;
  an `error` result models a revert, which on the EVM rolls back every
  effect, so errors carry no state (all-or-nothing semantics).
* `block.timestamp` and `msg.sender` are explicit arguments.
* `FHE.randEuint8()` (an external secure-random primitive) is an explicit
  argument of `startNewAssessment`.
* `keccak256(abi.encodePacked(applicant, currentAssessmentId))` is an explicit
  function argument `hashFn : Address -> Nat -> Nat` of the evaluation path.
* `FHE.checkSignatures(requestId, cleartexts, signatures)` is an external
  library routine (not part of this repository): it statelessly verifies the
  KMS signatures over the pair (requestId, cleartexts) and reverts on
  mismatch; it keeps no record of already-consumed request ids (request
  tracking is left to the calling contract in the oracle pattern).  We model
  it as an explicit stateless predicate
  `verify : Nat -> Nat -> Nat -> Bool` over (requestId, cleartext, signatures).
-/

/-- Participant and owner identities (EVM addresses), modelled as naturals. -/
abbrev Address := Nat

/-- Per-participant risk profile (struct RiskProfile, source lines 17 to 25).
Encrypted handles are modelled by the plaintext value they carry. -/
structure RiskProfile where
  encryptedCreditScore : Nat
  encryptedIncome : Nat
  encryptedEmploymentYears : Nat
  encryptedDebtRatio : Nat
  hasSubmitted : Bool
  timestamp : Nat
  applicant : Address
deriving Repr, DecidableEq

/-- Solidity default value of a RiskProfile mapping entry (all fields zero). -/
def defaultProfile : RiskProfile :=
  { encryptedCreditScore := 0, encryptedIncome := 0, encryptedEmploymentYears := 0,
    encryptedDebtRatio := 0, hasSubmitted := false, timestamp := 0, applicant := 0 }

/-- One assessment cycle record (struct Assessment, source lines 27 to 37).
The nested mappings are total functions with Solidity defaults. -/
structure Assessment where
  riskThreshold : Nat
  thresholdSet : Bool
  assessmentCompleted : Bool
  finalRiskLevel : Nat
  startTime : Nat
  endTime : Nat
  applicants : List Address
  profiles : Address → RiskProfile
  approvedApplicants : Address → Bool

/-- Solidity default value of an assessments mapping entry. -/
def emptyAssessment : Assessment :=
  { riskThreshold := 0, thresholdSet := false, assessmentCompleted := false,
    finalRiskLevel := 0, startTime := 0, endTime := 0, applicants := [],
    profiles := fun _ => defaultProfile, approvedApplicants := fun _ => false }

/-- Contract storage (source lines 9 to 11 and 39). -/
structure ContractState where
  owner : Address
  currentAssessmentId : Nat
  lastAssessmentTime : Nat
  assessments : Nat → Assessment

/-- Events emitted by the contract (source lines 41 to 44). -/
inductive Event
  | AssessmentStarted (assessmentId startTime : Nat)
  | ProfileSubmitted (applicant : Address) (assessmentId : Nat)
  | AssessmentCompleted (assessmentId approvedCount : Nat)
  | RiskLevelRevealed (assessmentId riskThreshold : Nat)
deriving Repr, DecidableEq

/-- Distinguishable revert causes, one per require site of the contract plus
the checked-arithmetic panic of the uint32 increment.  The names follow the
revert reason strings of the source. -/
inductive ContractError
  | NotAuthorized
  | NotDuringBusinessHours
  | AssessmentWindowNotActive
  | NotEvaluationTime
  | AssessmentAlreadyActive
  | InvalidCreditScore
  | InvalidEmploymentYears
  | InvalidDebtRatio
  | ProfileAlreadySubmitted
  | NoThresholdSet
  | AssessmentAlreadyCompleted
  | InvalidKMSSignatures
  | AssessmentNotCompleted
  | ArithmeticOverflow
deriving Repr, DecidableEq

/-- BUSINESS_HOURS_START constant (source line 14). -/
def BUSINESS_HOURS_START : Nat := 9

/-- BUSINESS_HOURS_END constant (source line 15). -/
def BUSINESS_HOURS_END : Nat := 17

/-- Modulus of the uint32 type of currentAssessmentId; Solidity 0.8 checked
arithmetic reverts when an increment would reach it. -/
def UINT32_SIZE : Nat := 2 ^ 32

/-- Constructor (source lines 66 to 70). -/
def deploy (deployer : Address) (t : Nat) : ContractState :=
  { owner := deployer, currentAssessmentId := 1, lastAssessmentTime := t,
    assessments := fun _ => emptyAssessment }

/-- Hour of day extracted from a unix timestamp (source lines 74 and 266). -/
def hourOf (t : Nat) : Nat := (t / 3600) % 24

/-- isBusinessHours (source lines 73 to 76). -/
def isBusinessHours (t : Nat) : Bool :=
  decide (BUSINESS_HOURS_START ≤ hourOf t ∧ hourOf t < BUSINESS_HOURS_END)

/-- isAssessmentWindowActive (source lines 79 to 83). -/
def isAssessmentWindowActive (s : ContractState) (t : Nat) : Bool :=
  if (s.assessments s.currentAssessmentId).thresholdSet = false then false
  else if (s.assessments s.currentAssessmentId).assessmentCompleted = true then false
  else isBusinessHours t

/-- isEvaluationTimeActive (source lines 86 to 90). -/
def isEvaluationTimeActive (s : ContractState) (t : Nat) : Bool :=
  !isBusinessHours t
    && (s.assessments s.currentAssessmentId).thresholdSet
    && !(s.assessments s.currentAssessmentId).assessmentCompleted

/-- Write one entry of the assessments mapping. -/
def setAssessment (s : ContractState) (id : Nat) (a : Assessment) : ContractState :=
  { s with assessments := fun j => if j = id then a else s.assessments j }

/-- Write the currentAssessmentId storage slot. -/
def setCurrentId (s : ContractState) (id : Nat) : ContractState :=
  { s with currentAssessmentId := id }

/-- startNewAssessment (source lines 93 to 112).  The onlyOwner and
onlyDuringBusinessHours modifiers run first, then the require on line 94;
the fresh random encrypted threshold of FHE.randEuint8() is the explicit
argument randThreshold.  Only the fields assigned on lines 102 to 106 are
written; the rest of the record (finalRiskLevel, endTime, profiles,
approvedApplicants) keeps its previous storage contents. -/
def startNewAssessment (s : ContractState) (sender : Address) (t : Nat)
    (randThreshold : Nat) : Except ContractError (ContractState × List Event) :=
  if sender ≠ s.owner then .error .NotAuthorized
  else if ¬ isBusinessHours t then .error .NotDuringBusinessHours
  else if (s.assessments s.currentAssessmentId).thresholdSet = true ∧
          (s.assessments s.currentAssessmentId).assessmentCompleted = false then
    .error .AssessmentAlreadyActive
  else
    .ok (setAssessment s s.currentAssessmentId
          { s.assessments s.currentAssessmentId with
            riskThreshold := randThreshold, thresholdSet := true,
            assessmentCompleted := false, startTime := t, applicants := [] },
         [Event.AssessmentStarted s.currentAssessmentId t])

/-- submitRiskProfile (source lines 115 to 156).  The
onlyDuringAssessmentWindow modifier runs first, then the three range
requires in source order, then the duplicate-submission require; on success
the profile record is overwritten wholesale and the sender is appended to
the applicants list. -/
def submitRiskProfile (s : ContractState) (sender : Address) (t : Nat)
    (creditScore income employmentYears debtRatio : Nat) :
    Except ContractError (ContractState × List Event) :=
  if ¬ isAssessmentWindowActive s t then .error .AssessmentWindowNotActive
  else if 850 < creditScore then .error .InvalidCreditScore
  else if 50 < employmentYears then .error .InvalidEmploymentYears
  else if 100 < debtRatio then .error .InvalidDebtRatio
  else if ((s.assessments s.currentAssessmentId).profiles sender).hasSubmitted = true then
    .error .ProfileAlreadySubmitted
  else
    .ok (setAssessment s s.currentAssessmentId
          { s.assessments s.currentAssessmentId with
            profiles := fun x =>
              if x = sender then
                { encryptedCreditScore := creditScore, encryptedIncome := income,
                  encryptedEmploymentYears := employmentYears,
                  encryptedDebtRatio := debtRatio, hasSubmitted := true,
                  timestamp := t, applicant := sender }
              else (s.assessments s.currentAssessmentId).profiles x,
            applicants := (s.assessments s.currentAssessmentId).applicants ++ [sender] },
         [Event.ProfileSubmitted sender s.currentAssessmentId])

/-- processRiskAssessment (source lines 159 to 169): gated by
onlyDuringEvaluationTime and two requires, it issues a decryption request
for the threshold handle and writes no storage; the returned value is the
requested handle. -/
def processRiskAssessment (s : ContractState) (t : Nat) : Except ContractError Nat :=
  if ¬ isEvaluationTimeActive s t then .error .NotEvaluationTime
  else if (s.assessments s.currentAssessmentId).thresholdSet = false then
    .error .NoThresholdSet
  else if (s.assessments s.currentAssessmentId).assessmentCompleted = true then
    .error .AssessmentAlreadyCompleted
  else .ok (s.assessments s.currentAssessmentId).riskThreshold

/-- calculateRiskScore, private (source lines 222 to 229): hashFn stands for
keccak256(abi.encodePacked(applicant, currentAssessmentId)); the uint8 cast
of the value already reduced mod 101 is the mod 256 here. -/
def calculateRiskScore (hashFn : Address → Nat → Nat) (s : ContractState)
    (applicant : Address) (threshold : Nat) : Bool :=
  decide ((hashFn applicant s.currentAssessmentId % 101) % 256 ≤ threshold)

/-- Loop body of evaluateApplicants (source lines 205 to 216): walks the
applicants list in order, setting the approval flag of each approved
applicant and counting approvals. -/
def evaluateApplicantsLoop (hashFn : Address → Nat → Nat) (s : ContractState)
    (threshold : Nat) :
    List Address → (Address → Bool) → Nat → (Address → Bool) × Nat
  | [], approved, count => (approved, count)
  | x :: rest, approved, count =>
    if calculateRiskScore hashFn s x threshold then
      evaluateApplicantsLoop hashFn s threshold rest
        (fun y => if y = x then true else approved y) (count + 1)
    else
      evaluateApplicantsLoop hashFn s threshold rest approved count

/-- processAssessmentResult, the decryption callback (source lines 172 to
195).  FHE.checkSignatures is the stateless external predicate verify; no
request id is recorded or checked against earlier callbacks, and no check of
assessmentCompleted is made.  The uint32 increment of currentAssessmentId on
line 194 reverts the whole call on overflow (checked arithmetic), which in
this all-or-nothing model is the up-front second branch. -/
def processAssessmentResult (hashFn : Address → Nat → Nat)
    (verify : Nat → Nat → Nat → Bool) (s : ContractState)
    (requestId riskThreshold signatures : Nat) (t : Nat) :
    Except ContractError (ContractState × List Event) :=
  if verify requestId riskThreshold signatures = false then .error .InvalidKMSSignatures
  else if UINT32_SIZE ≤ s.currentAssessmentId + 1 then .error .ArithmeticOverflow
  else
    .ok (setCurrentId
          (setAssessment s s.currentAssessmentId
            { s.assessments s.currentAssessmentId with
              finalRiskLevel := riskThreshold,
              endTime := t,
              approvedApplicants :=
                (evaluateApplicantsLoop hashFn s riskThreshold
                  (s.assessments s.currentAssessmentId).applicants
                  (s.assessments s.currentAssessmentId).approvedApplicants 0).1,
              assessmentCompleted := true })
          (s.currentAssessmentId + 1),
         [Event.AssessmentCompleted s.currentAssessmentId
            (evaluateApplicantsLoop hashFn s riskThreshold
              (s.assessments s.currentAssessmentId).applicants
              (s.assessments s.currentAssessmentId).approvedApplicants 0).2,
          Event.RiskLevelRevealed s.currentAssessmentId riskThreshold])

/-- pauseCurrentAssessment (source lines 288 to 291): onlyOwner, then
unconditionally completes the current record and stamps its end time. -/
def pauseCurrentAssessment (s : ContractState) (sender : Address) (t : Nat) :
    Except ContractError (ContractState × List Event) :=
  if sender ≠ s.owner then .error .NotAuthorized
  else
    .ok (setAssessment s s.currentAssessmentId
          { s.assessments s.currentAssessmentId with
            assessmentCompleted := true, endTime := t },
         [])

/-- Return value of the getAssessmentHistory view (source lines 270 to 285). -/
structure AssessmentHistoryView where
  assessmentCompleted : Bool
  finalRiskLevel : Nat
  startTime : Nat
  endTime : Nat
  applicantCount : Nat
deriving Repr, DecidableEq

/-- getAssessmentHistory (source lines 270 to 285). -/
def getAssessmentHistory (s : ContractState) (assessmentId : Nat) :
    AssessmentHistoryView :=
  { assessmentCompleted := (s.assessments assessmentId).assessmentCompleted,
    finalRiskLevel := (s.assessments assessmentId).finalRiskLevel,
    startTime := (s.assessments assessmentId).startTime,
    endTime := (s.assessments assessmentId).endTime,
    applicantCount := (s.assessments assessmentId).applicants.length }

/-- checkApprovalStatus (source lines 294 to 297). -/
def checkApprovalStatus (s : ContractState) (assessmentId : Nat)
    (applicant : Address) : Except ContractError Bool :=
  if (s.assessments assessmentId).assessmentCompleted = false then
    .error .AssessmentNotCompleted
  else .ok ((s.assessments assessmentId).approvedApplicants applicant)

/-- getCurrentHour (source lines 265 to 267). -/
def getCurrentHour (t : Nat) : Nat := hourOf t

/-- A cycle record is active when its threshold is set and it is not
completed, matching the states SubmissionOpen and AwaitingEvaluation. -/
def Assessment.isActive (a : Assessment) : Bool :=
  a.thresholdSet && !a.assessmentCompleted

/-- Projection of a transaction result to the poststate, with a fallback for
reverts; used to build concrete execution traces. -/
def stateOf (x : Except ContractError (ContractState × List Event))
    (fallback : ContractState) : ContractState :=
  match x with
  | .ok p => p.1
  | .error _ => fallback

/-- Success test for a transaction result. -/
def isOkTx (x : Except ContractError (ContractState × List Event)) : Bool :=
  match x with
  | .ok _ => true
  | .error _ => false

/-- Concrete stand-in for keccak256(abi.encodePacked(applicant, id)) used in
concrete traces. -/
def hashFn0 : Address → Nat → Nat := fun a i => a * 7919 + i * 104729

/-- Concrete oracle-signature verifier used in concrete traces: exactly the
payload of request 7, cleartext 50, signature blob 99 verifies. -/
def verify0 : Nat → Nat → Nat → Bool :=
  fun r c g => decide (r = 7) && decide (c = 50) && decide (g = 99)

@[simp] theorem setAssessment_assessments_same (s : ContractState) (id : Nat)
    (a : Assessment) : (setAssessment s id a).assessments id = a := by
  simp [setAssessment]

theorem setAssessment_assessments_ne (s : ContractState) (id j : Nat)
    (a : Assessment) (h : j ≠ id) :
    (setAssessment s id a).assessments j = s.assessments j := by
  simp [setAssessment, h]

@[simp] theorem setAssessment_currentAssessmentId (s : ContractState) (id : Nat)
    (a : Assessment) :
    (setAssessment s id a).currentAssessmentId = s.currentAssessmentId := rfl

@[simp] theorem setAssessment_owner (s : ContractState) (id : Nat)
    (a : Assessment) : (setAssessment s id a).owner = s.owner := rfl

@[simp] theorem setCurrentId_currentAssessmentId (s : ContractState) (id : Nat) :
    (setCurrentId s id).currentAssessmentId = id := rfl

@[simp] theorem setCurrentId_assessments (s : ContractState) (id : Nat) :
    (setCurrentId s id).assessments = s.assessments := rfl

@[simp] theorem setCurrentId_owner (s : ContractState) (id : Nat) :
    (setCurrentId s id).owner = s.owner := rfl

theorem startNewAssessment_ok {s : ContractState} {sender t randThreshold : Nat}
    {s' : ContractState} {ev : List Event}
    (h : startNewAssessment s sender t randThreshold = .ok (s', ev)) :
    sender = s.owner ∧ isBusinessHours t = true ∧
    ¬((s.assessments s.currentAssessmentId).thresholdSet = true ∧
      (s.assessments s.currentAssessmentId).assessmentCompleted = false) ∧
    s' = setAssessment s s.currentAssessmentId
          { s.assessments s.currentAssessmentId with
            riskThreshold := randThreshold, thresholdSet := true,
            assessmentCompleted := false, startTime := t, applicants := [] } ∧
    ev = [Event.AssessmentStarted s.currentAssessmentId t] := by
  unfold startNewAssessment at h
  split at h
  · exact absurd h (by simp)
  · split at h
    · exact absurd h (by simp)
    · split at h
      · exact absurd h (by simp)
      · rename_i h1 h2 h3
        simp only [Except.ok.injEq, Prod.mk.injEq] at h
        exact ⟨not_not.mp h1, not_not.mp h2, h3, h.1.symm, h.2.symm⟩

theorem submitRiskProfile_ok {s : ContractState}
    {sender t creditScore income employmentYears debtRatio : Nat}
    {s' : ContractState} {ev : List Event}
    (h : submitRiskProfile s sender t creditScore income employmentYears debtRatio
          = .ok (s', ev)) :
    isAssessmentWindowActive s t = true ∧
    creditScore ≤ 850 ∧ employmentYears ≤ 50 ∧ debtRatio ≤ 100 ∧
    ((s.assessments s.currentAssessmentId).profiles sender).hasSubmitted = false ∧
    s' = setAssessment s s.currentAssessmentId
          { s.assessments s.currentAssessmentId with
            profiles := fun x =>
              if x = sender then
                { encryptedCreditScore := creditScore, encryptedIncome := income,
                  encryptedEmploymentYears := employmentYears,
                  encryptedDebtRatio := debtRatio, hasSubmitted := true,
                  timestamp := t, applicant := sender }
              else (s.assessments s.currentAssessmentId).profiles x,
            applicants := (s.assessments s.currentAssessmentId).applicants ++ [sender] } ∧
    ev = [Event.ProfileSubmitted sender s.currentAssessmentId] := by
  unfold submitRiskProfile at h
  split at h
  · exact absurd h (by simp)
  · split at h
    · exact absurd h (by simp)
    · split at h
      · exact absurd h (by simp)
      · split at h
        · exact absurd h (by simp)
        · split at h
          · exact absurd h (by simp)
          · rename_i h1 h2 h3 h4 h5
            simp only [Except.ok.injEq, Prod.mk.injEq] at h
            refine ⟨not_not.mp (by simpa using h1), by omega, by omega, by omega,
              by simpa using h5, h.1.symm, h.2.symm⟩

theorem processAssessmentResult_ok {hashFn : Address → Nat → Nat}
    {verify : Nat → Nat → Nat → Bool} {s : ContractState}
    {requestId riskThreshold signatures t : Nat}
    {s' : ContractState} {ev : List Event}
    (h : processAssessmentResult hashFn verify s requestId riskThreshold signatures t
          = .ok (s', ev)) :
    verify requestId riskThreshold signatures = true ∧
    s.currentAssessmentId + 1 < UINT32_SIZE ∧
    s' = setCurrentId
          (setAssessment s s.currentAssessmentId
            { s.assessments s.currentAssessmentId with
              finalRiskLevel := riskThreshold,
              endTime := t,
              approvedApplicants :=
                (evaluateApplicantsLoop hashFn s riskThreshold
                  (s.assessments s.currentAssessmentId).applicants
                  (s.assessments s.currentAssessmentId).approvedApplicants 0).1,
              assessmentCompleted := true })
          (s.currentAssessmentId + 1) ∧
    ev = [Event.AssessmentCompleted s.currentAssessmentId
            (evaluateApplicantsLoop hashFn s riskThreshold
              (s.assessments s.currentAssessmentId).applicants
              (s.assessments s.currentAssessmentId).approvedApplicants 0).2,
          Event.RiskLevelRevealed s.currentAssessmentId riskThreshold] := by
  unfold processAssessmentResult at h
  split at h
  · exact absurd h (by simp)
  · split at h
    · exact absurd h (by simp)
    · rename_i h1 h2
      simp only [Except.ok.injEq, Prod.mk.injEq] at h
      exact ⟨by simpa using h1, by omega, h.1.symm, h.2.symm⟩

theorem pauseCurrentAssessment_ok {s : ContractState} {sender t : Nat}
    {s' : ContractState} {ev : List Event}
    (h : pauseCurrentAssessment s sender t = .ok (s', ev)) :
    sender = s.owner ∧
    s' = setAssessment s s.currentAssessmentId
          { s.assessments s.currentAssessmentId with
            assessmentCompleted := true, endTime := t } ∧
    ev = [] := by
  unfold pauseCurrentAssessment at h
  split at h
  · exact absurd h (by simp)
  · rename_i h1
    simp only [Except.ok.injEq, Prod.mk.injEq] at h
    exact ⟨not_not.mp h1, h.1.symm, h.2.symm⟩

/-- Deployed state of the concrete traces: owner 1, deployed at time 0. -/
def trace0 : ContractState := deploy 1 0

/-- C1 trace, step 1: the owner starts cycle 1 at hour 9 with random
threshold handle 42. -/
def c1S1 : ContractState := stateOf (startNewAssessment trace0 1 32400 42) trace0

/-- C1 trace, step 2: the genuine oracle callback for request 7 with
cleartext 50 and signature blob 99, delivered at hour 18. -/
def c1S2 : ContractState :=
  stateOf (processAssessmentResult hashFn0 verify0 c1S1 7 50 99 64800) c1S1

/-- C1 trace, step 3: the same callback payload replayed a moment later. -/
def c1S3 : ContractState :=
  stateOf (processAssessmentResult hashFn0 verify0 c1S2 7 50 99 64860) c1S2

/-- C1: the claim says a second onDecryptionCallback with the same requestId
fails with StateError after the first succeeded.  The contract records no
consumed request ids and re-checks nothing, so the replayed callback is
accepted again: both calls return ok, and the replay completes the untouched
cycle 2 (threshold never set) and advances the id a second time. -/
theorem c1_replay_is_accepted :
    isOkTx (processAssessmentResult hashFn0 verify0 c1S1 7 50 99 64800) = true ∧
    c1S2.currentAssessmentId = 2 ∧
    (c1S2.assessments 1).assessmentCompleted = true ∧
    isOkTx (processAssessmentResult hashFn0 verify0 c1S2 7 50 99 64860) = true ∧
    c1S3.currentAssessmentId = 3 ∧
    (c1S3.assessments 2).assessmentCompleted = true ∧
    (c1S3.assessments 2).thresholdSet = false := by
  refine ⟨rfl, rfl, rfl, rfl, rfl, rfl, rfl⟩

/-- C2 trace, step 1: the owner starts cycle 1 at hour 9. -/
def c2S1 : ContractState := stateOf (startNewAssessment trace0 1 32400 42) trace0

/-- C2 trace, step 2: the owner pauses at hour 10, completing cycle 1 in
place (the id stays 1). -/
def c2S2 : ContractState := stateOf (pauseCurrentAssessment c2S1 1 36000) c2S1

/-- C2 trace, step 3: the oracle answer for the cycle-1 request arrives at
hour 18, after the pause. -/
def c2S3 : ContractState :=
  stateOf (processAssessmentResult hashFn0 verify0 c2S2 7 50 99 64800) c2S2

/-- C2: the claim says a completed cycle is an immutable record and a
subsequent decryption callback for it is rejected.  After pause completes
cycle 1, the callback carries a fresh (never consumed) request id, its
signatures verify, and the contract checks neither the request id nor the
completed flag: the call is accepted and mutates the completed cycle-1
record, rewriting finalRiskLevel from 0 to 50 and endTime from 36000 to
64800, then advances the id. -/
theorem c2_completed_record_mutated :
    (c2S2.assessments 1).assessmentCompleted = true ∧
    (c2S2.assessments 1).finalRiskLevel = 0 ∧
    (c2S2.assessments 1).endTime = 36000 ∧
    isOkTx (processAssessmentResult hashFn0 verify0 c2S2 7 50 99 64800) = true ∧
    (c2S3.assessments 1).finalRiskLevel = 50 ∧
    (c2S3.assessments 1).endTime = 64800 ∧
    c2S3.currentAssessmentId = 2 := by
  refine ⟨rfl, rfl, rfl, rfl, rfl, rfl, rfl⟩

/-- C3 trace, step 1: the owner starts cycle 1 at hour 9 with threshold
handle 42. -/
def c3S1 : ContractState := stateOf (startNewAssessment trace0 1 32400 42) trace0

/-- C3 trace, step 2: the owner pauses at hour 10; cycle 1 is now completed
but the id is still 1. -/
def c3S2 : ContractState := stateOf (pauseCurrentAssessment c3S1 1 36000) c3S1

/-- C3 trace, step 3: the owner starts again at hour 11 with threshold
handle 77. -/
def c3S3 : ContractState := stateOf (startNewAssessment c3S2 1 39600 77) c3S2

/-- C3 counterexample: the claim says a new cycle can only begin under an
identifier strictly greater than every previously completed cycle and that
completed records are never overwritten by startCycle.  After pause
completes cycle 1 the id is still 1, and startNewAssessment succeeds and
begins the new cycle under identifier 1 itself, flipping the completed
record back to not-completed and replacing its threshold: the completed
cycle-1 record is overwritten in place. -/
theorem c3_pause_restart_reuses_id :
    (c3S2.assessments 1).assessmentCompleted = true ∧
    c3S2.currentAssessmentId = 1 ∧
    isOkTx (startNewAssessment c3S2 1 39600 77) = true ∧
    c3S3.currentAssessmentId = 1 ∧
    (c3S3.assessments 1).assessmentCompleted = false ∧
    (c3S3.assessments 1).riskThreshold = 77 ∧
    (c3S3.assessments 1).startTime = 39600 := by
  refine ⟨rfl, rfl, rfl, rfl, rfl, rfl, rfl⟩

/-- Single state-mutating transaction of the contract, with arbitrary
sender, timestamp, randomness and oracle payload.  processRiskAssessment is
omitted because it writes no storage. -/
inductive Step (hashFn : Address → Nat → Nat) (verify : Nat → Nat → Nat → Bool) :
    ContractState → ContractState → Prop
  | start {s s' : ContractState} {ev : List Event} (sender t randThreshold : Nat)
      (h : startNewAssessment s sender t randThreshold = .ok (s', ev)) :
      Step hashFn verify s s'
  | submit {s s' : ContractState} {ev : List Event}
      (sender t creditScore income employmentYears debtRatio : Nat)
      (h : submitRiskProfile s sender t creditScore income employmentYears debtRatio
            = .ok (s', ev)) :
      Step hashFn verify s s'
  | callback {s s' : ContractState} {ev : List Event}
      (requestId riskThreshold signatures t : Nat)
      (h : processAssessmentResult hashFn verify s requestId riskThreshold signatures t
            = .ok (s', ev)) :
      Step hashFn verify s s'
  | pause {s s' : ContractState} {ev : List Event} (sender t : Nat)
      (h : pauseCurrentAssessment s sender t = .ok (s', ev)) :
      Step hashFn verify s s'

/-- States reachable from deployment by successful transactions. -/
inductive Reachable (hashFn : Address → Nat → Nat)
    (verify : Nat → Nat → Nat → Bool) : ContractState → Prop
  | deployed (deployer : Address) (t : Nat) :
      Reachable hashFn verify (deploy deployer t)
  | next {s s' : ContractState} (hs : Reachable hashFn verify s)
      (hstep : Step hashFn verify s s') : Reachable hashFn verify s'

/-- State-machine invariant: every non-current record is inactive, and every
completed or threshold-bearing record has an identifier at most the current
one. -/
def GoodState (s : ContractState) : Prop :=
  (∀ id, id ≠ s.currentAssessmentId → (s.assessments id).isActive = false) ∧
  (∀ id, (s.assessments id).assessmentCompleted = true → id ≤ s.currentAssessmentId) ∧
  (∀ id, (s.assessments id).thresholdSet = true → id ≤ s.currentAssessmentId)

theorem goodState_step {hashFn : Address → Nat → Nat}
    {verify : Nat → Nat → Nat → Bool} {s s' : ContractState}
    (ih : GoodState s) (hstep : Step hashFn verify s s') : GoodState s' := by
  obtain ⟨ih1, ih2, ih3⟩ := ih
  cases hstep with
  | start sender t randThreshold h =>
    obtain ⟨-, -, -, hs', -⟩ := startNewAssessment_ok h
    subst hs'
    refine ⟨?_, ?_, ?_⟩ <;> intro id
    · intro hid
      rw [setAssessment_currentAssessmentId] at hid
      rw [setAssessment_assessments_ne _ _ _ _ hid]
      exact ih1 id hid
    · by_cases hid : id = s.currentAssessmentId
      · subst hid; simp
      · rw [setAssessment_assessments_ne _ _ _ _ hid, setAssessment_currentAssessmentId]
        exact ih2 id
    · by_cases hid : id = s.currentAssessmentId
      · subst hid; simp
      · rw [setAssessment_assessments_ne _ _ _ _ hid, setAssessment_currentAssessmentId]
        exact ih3 id
  | submit sender t creditScore income employmentYears debtRatio h =>
    obtain ⟨-, -, -, -, -, hs', -⟩ := submitRiskProfile_ok h
    subst hs'
    refine ⟨?_, ?_, ?_⟩ <;> intro id
    · intro hid
      rw [setAssessment_currentAssessmentId] at hid
      by_cases hid' : id = s.currentAssessmentId
      · subst hid'; exact absurd rfl hid
      · rw [setAssessment_assessments_ne _ _ _ _ hid']
        exact ih1 id hid
    · by_cases hid : id = s.currentAssessmentId
      · subst hid; simp
      · rw [setAssessment_assessments_ne _ _ _ _ hid, setAssessment_currentAssessmentId]
        exact ih2 id
    · by_cases hid : id = s.currentAssessmentId
      · subst hid
        simp only [setAssessment_assessments_same, setAssessment_currentAssessmentId]
        intro hset
        exact ih3 _ hset
      · rw [setAssessment_assessments_ne _ _ _ _ hid, setAssessment_currentAssessmentId]
        exact ih3 id
  | callback requestId riskThreshold signatures t h =>
    obtain ⟨-, -, hs', -⟩ := processAssessmentResult_ok h
    subst hs'
    refine ⟨?_, ?_, ?_⟩ <;> intro id <;>
      rw [setCurrentId_assessments, setCurrentId_currentAssessmentId]
    · intro hid
      by_cases hid' : id = s.currentAssessmentId
      · subst hid'
        simp [Assessment.isActive]
      · rw [setAssessment_assessments_ne _ _ _ _ hid']
        exact ih1 id hid'
    · by_cases hid : id = s.currentAssessmentId
      · subst hid
        intro _
        omega
      · rw [setAssessment_assessments_ne _ _ _ _ hid]
        intro hc
        exact Nat.le_succ_of_le (ih2 id hc)
    · by_cases hid : id = s.currentAssessmentId
      · subst hid
        intro _
        omega
      · rw [setAssessment_assessments_ne _ _ _ _ hid]
        intro hc
        exact Nat.le_succ_of_le (ih3 id hc)
  | pause sender t h =>
    obtain ⟨-, hs', -⟩ := pauseCurrentAssessment_ok h
    subst hs'
    refine ⟨?_, ?_, ?_⟩ <;> intro id
    · intro hid
      rw [setAssessment_currentAssessmentId] at hid
      rw [setAssessment_assessments_ne _ _ _ _ hid]
      exact ih1 id hid
    · by_cases hid : id = s.currentAssessmentId
      · subst hid; simp
      · rw [setAssessment_assessments_ne _ _ _ _ hid, setAssessment_currentAssessmentId]
        exact ih2 id
    · by_cases hid : id = s.currentAssessmentId
      · subst hid; simp
      · rw [setAssessment_assessments_ne _ _ _ _ hid, setAssessment_currentAssessmentId]
        exact ih3 id

theorem reachable_goodState {hashFn : Address → Nat → Nat}
    {verify : Nat → Nat → Nat → Bool} {s : ContractState}
    (h : Reachable hashFn verify s) : GoodState s := by
  induction h with
  | deployed deployer t =>
    refine ⟨?_, ?_, ?_⟩ <;> intro id <;>
      simp [deploy, emptyAssessment, Assessment.isActive]
  | next hs hstep ih => exact goodState_step ih hstep

/-- C3 (amended): in every reachable state at most one cycle is active
(threshold set and not completed) and the active cycle, if any, is the
current one; every completed cycle and every started cycle has an identifier
at most the current one; and startCycle always begins its new cycle exactly
at the current identifier, leaving every other record untouched - so the new
identifier is greater than or equal to, but not always strictly greater
than, every previously completed identifier: when the current cycle was
completed by pause, startCycle reuses that identifier and overwrites the
completed record in place. -/
theorem c3_cycle_exclusivity_amended (hashFn : Address → Nat → Nat)
    (verify : Nat → Nat → Nat → Bool) (s : ContractState)
    (hs : Reachable hashFn verify s) :
    (∀ id, id ≠ s.currentAssessmentId → (s.assessments id).isActive = false) ∧
    (∀ id, (s.assessments id).assessmentCompleted = true →
      id ≤ s.currentAssessmentId) ∧
    (∀ sender t randThreshold s' ev,
      startNewAssessment s sender t randThreshold = .ok (s', ev) →
      s'.currentAssessmentId = s.currentAssessmentId ∧
      (s'.assessments s.currentAssessmentId).isActive = true ∧
      ∀ id, id ≠ s.currentAssessmentId → s'.assessments id = s.assessments id) := by
  obtain ⟨g1, g2, -⟩ := reachable_goodState hs
  refine ⟨g1, g2, ?_⟩
  intro sender t randThreshold s' ev h
  obtain ⟨-, -, -, hs', -⟩ := startNewAssessment_ok h
  subst hs'
  refine ⟨rfl, ?_, ?_⟩
  · simp [Assessment.isActive]
  · intro id hid
    exact setAssessment_assessments_ne _ _ _ _ hid

/-- C3 amended claim, witness: the state after starting, pausing and
restarting (the counterexample trace) is reachable, and the amended
invariant holds there; in particular cycle 2 is not active even though the
current identifier is 1, and a further startNewAssessment would keep the
identifier at 1. -/
theorem c3_amended_witness :
    Reachable hashFn0 verify0 c3S3 ∧
    (c3S3.assessments 2).isActive = false ∧
    (∀ id, (c3S3.assessments id).assessmentCompleted = true →
      id ≤ c3S3.currentAssessmentId) := by
  have hreach : Reachable hashFn0 verify0 c3S3 := by
    have h1 : Reachable hashFn0 verify0 c3S1 :=
      Reachable.next (Reachable.deployed 1 0) (Step.start 1 32400 42 rfl)
    have h2 : Reachable hashFn0 verify0 c3S2 :=
      Reachable.next h1 (Step.pause 1 36000 rfl)
    exact Reachable.next h2 (Step.start 1 39600 77 rfl)
  have h := c3_cycle_exclusivity_amended hashFn0 verify0 c3S3 hreach
  exact ⟨hreach, h.1 2 (by decide), h.2.1⟩

theorem evaluateApplicantsLoop_count (hashFn : Address → Nat → Nat)
    (s : ContractState) (threshold : Nat) (l : List Address)
    (approved : Address → Bool) (count : Nat) :
    (evaluateApplicantsLoop hashFn s threshold l approved count).2 =
      count + (l.filter (fun x => calculateRiskScore hashFn s x threshold)).length := by
  induction l generalizing approved count with
  | nil => simp [evaluateApplicantsLoop]
  | cons x rest ih =>
    rw [evaluateApplicantsLoop, List.filter_cons]
    by_cases hx : calculateRiskScore hashFn s x threshold = true
    · rw [if_pos hx, ih]
      simp [hx]
      omega
    · rw [if_neg hx, ih]
      simp [hx]

theorem evaluateApplicantsLoop_flags (hashFn : Address → Nat → Nat)
    (s : ContractState) (threshold : Nat) (l : List Address)
    (approved : Address → Bool) (count : Nat) :
    (evaluateApplicantsLoop hashFn s threshold l approved count).1 =
      fun y => approved y ||
        (decide (y ∈ l) && calculateRiskScore hashFn s y threshold) := by
  induction l generalizing approved count with
  | nil => funext y; simp [evaluateApplicantsLoop]
  | cons x rest ih =>
    by_cases hx : calculateRiskScore hashFn s x threshold = true
    · rw [evaluateApplicantsLoop, if_pos hx, ih]
      funext y
      by_cases hy : y = x
      · subst hy
        simp [hx]
      · simp [hy]
    · rw [evaluateApplicantsLoop, if_neg hx, ih]
      funext y
      by_cases hy : y = x
      · subst hy
        simp only [Bool.not_eq_true] at hx
        simp [hx]
      · simp [hy]

/-- C4: on a decryption callback whose proof verifies (and whose uint32
increment does not overflow), the contract records the revealed threshold as
the final risk level of the current cycle, stamps the end time, evaluates
exactly the applicants of the participant list (a flag becomes set iff it
was already set or the applicant is listed with pseudo-risk at most the
threshold, and the emitted count is the number of approved list entries),
marks the cycle completed, emits AssessmentCompleted and RiskLevelRevealed
for that cycle, advances the id by exactly one and touches no other
record. -/
theorem c4_callback_effects (hashFn : Address → Nat → Nat)
    (verify : Nat → Nat → Nat → Bool) (s : ContractState)
    (requestId riskThreshold signatures t : Nat)
    (hv : verify requestId riskThreshold signatures = true)
    (hof : s.currentAssessmentId + 1 < UINT32_SIZE) :
    processAssessmentResult hashFn verify s requestId riskThreshold signatures t =
      .ok (setCurrentId
            (setAssessment s s.currentAssessmentId
              { s.assessments s.currentAssessmentId with
                finalRiskLevel := riskThreshold,
                endTime := t,
                approvedApplicants := fun y =>
                  (s.assessments s.currentAssessmentId).approvedApplicants y ||
                    (decide (y ∈ (s.assessments s.currentAssessmentId).applicants) &&
                      calculateRiskScore hashFn s y riskThreshold),
                assessmentCompleted := true })
            (s.currentAssessmentId + 1),
           [Event.AssessmentCompleted s.currentAssessmentId
              ((s.assessments s.currentAssessmentId).applicants.filter
                (fun x => calculateRiskScore hashFn s x riskThreshold)).length,
            Event.RiskLevelRevealed s.currentAssessmentId riskThreshold]) := by
  unfold processAssessmentResult
  rw [if_neg (by simp [hv]), if_neg (by omega),
    evaluateApplicantsLoop_flags, evaluateApplicantsLoop_count]
  simp

/-- Prestate of the C4 witness: owner 1 started cycle 1 at hour 9, and
applicants 3 and 4 submitted in that order at hour 10. -/
def c4S : ContractState :=
  stateOf (submitRiskProfile
    (stateOf (submitRiskProfile
      (stateOf (startNewAssessment trace0 1 32400 42) trace0)
      3 36000 700 50000 5 30) trace0)
    4 36010 650 40000 3 40) trace0

/-- C4 witness: at the concrete prestate with two applicants, the verified
callback produces exactly the characterized poststate and events. -/
theorem c4_witness :
    verify0 7 50 99 = true ∧ c4S.currentAssessmentId + 1 < UINT32_SIZE ∧
    processAssessmentResult hashFn0 verify0 c4S 7 50 99 64800 =
      .ok (setCurrentId
            (setAssessment c4S c4S.currentAssessmentId
              { c4S.assessments c4S.currentAssessmentId with
                finalRiskLevel := 50,
                endTime := 64800,
                approvedApplicants := fun y =>
                  (c4S.assessments c4S.currentAssessmentId).approvedApplicants y ||
                    (decide (y ∈ (c4S.assessments c4S.currentAssessmentId).applicants) &&
                      calculateRiskScore hashFn0 c4S y 50),
                assessmentCompleted := true })
            (c4S.currentAssessmentId + 1),
           [Event.AssessmentCompleted c4S.currentAssessmentId
              ((c4S.assessments c4S.currentAssessmentId).applicants.filter
                (fun x => calculateRiskScore hashFn0 c4S x 50)).length,
            Event.RiskLevelRevealed c4S.currentAssessmentId 50]) :=
  ⟨rfl, by decide, c4_callback_effects hashFn0 verify0 c4S 7 50 99 64800 rfl (by decide)⟩

/-- C5: whenever the current cycle has its threshold set and is not
completed, startNewAssessment reverts - and since a revert rolls back every
effect, no state change at all occurs (errors carry no poststate in this
model).  The revert cause is AssessmentAlreadyActive, the StateError of the
claim, whenever the call gets past the onlyOwner and onlyDuringBusinessHours
modifiers, which run first; any other caller or time still reverts, with the
corresponding modifier error. -/
theorem c5_start_fails_when_active (s : ContractState)
    (sender t randThreshold : Nat)
    (hset : (s.assessments s.currentAssessmentId).thresholdSet = true)
    (hnc : (s.assessments s.currentAssessmentId).assessmentCompleted = false) :
    (∃ e, startNewAssessment s sender t randThreshold = .error e) ∧
    (sender = s.owner → isBusinessHours t = true →
      startNewAssessment s sender t randThreshold = .error .AssessmentAlreadyActive) := by
  unfold startNewAssessment
  by_cases h1 : sender ≠ s.owner
  · rw [if_pos h1]
    exact ⟨⟨_, rfl⟩, fun ho _ => absurd ho h1⟩
  · rw [if_neg h1]
    by_cases h2 : isBusinessHours t = true
    · rw [if_neg (by simp [h2]), if_pos ⟨hset, hnc⟩]
      exact ⟨⟨_, rfl⟩, fun _ _ => rfl⟩
    · rw [if_pos (by simpa using h2)]
      exact ⟨⟨_, rfl⟩, fun _ hbh => absurd hbh h2⟩

/-- State with an active cycle used by several witnesses: owner 1 started
cycle 1 at hour 9 with threshold handle 42. -/
def activeS : ContractState := stateOf (startNewAssessment trace0 1 32400 42) trace0

/-- C5 witness: at the concrete active state, a repeated start by the owner
during business hours reverts with AssessmentAlreadyActive. -/
theorem c5_witness :
    (activeS.assessments activeS.currentAssessmentId).thresholdSet = true ∧
    (activeS.assessments activeS.currentAssessmentId).assessmentCompleted = false ∧
    ((∃ e, startNewAssessment activeS 1 36000 7 = .error e) ∧
      (1 = activeS.owner → isBusinessHours 36000 = true →
        startNewAssessment activeS 1 36000 7 = .error .AssessmentAlreadyActive)) :=
  ⟨rfl, rfl, c5_start_fails_when_active activeS 1 36000 7 rfl rfl⟩

/-- C6: isBusinessHours is exactly the condition that the hour of day lies
in the business interval, and whenever the current cycle has its threshold
set and is not completed, exactly one of the submission window and the
evaluation window is open at any timestamp. -/
theorem c6_window_gating (s : ContractState) (t : Nat)
    (hset : (s.assessments s.currentAssessmentId).thresholdSet = true)
    (hnc : (s.assessments s.currentAssessmentId).assessmentCompleted = false) :
    (isBusinessHours t = true ↔ 9 ≤ hourOf t ∧ hourOf t < 17) ∧
    Bool.xor (isBusinessHours t) (isEvaluationTimeActive s t) = true := by
  constructor
  · simp [isBusinessHours, BUSINESS_HOURS_START, BUSINESS_HOURS_END]
  · unfold isEvaluationTimeActive
    rw [hset, hnc]
    cases h : isBusinessHours t <;> simp [h]

/-- C6 witness: at the concrete active state, hour 10 is in the submission
window and not the evaluation window. -/
theorem c6_witness :
    (activeS.assessments activeS.currentAssessmentId).thresholdSet = true ∧
    (activeS.assessments activeS.currentAssessmentId).assessmentCompleted = false ∧
    ((isBusinessHours 36000 = true ↔ 9 ≤ hourOf 36000 ∧ hourOf 36000 < 17) ∧
      Bool.xor (isBusinessHours 36000) (isEvaluationTimeActive activeS 36000) = true) :=
  ⟨rfl, rfl, c6_window_gating activeS 36000 rfl rfl⟩

/-- C7: when the submission window is open and the sender has not yet
submitted, submitRiskProfile reverts with the range error for creditScore
851, employmentYears 51 or debtRatio 101, and succeeds at the boundary
values 850, 50 and 100 for every income inside the declared uint32 width
(the contract itself imposes no upper bound on income). -/
theorem c7_range_enforcement (s : ContractState) (sender t income : Nat)
    (hw : isAssessmentWindowActive s t = true)
    (hns : ((s.assessments s.currentAssessmentId).profiles sender).hasSubmitted = false)
    (hinc : income < UINT32_SIZE) :
    submitRiskProfile s sender t 851 income 50 100 = .error .InvalidCreditScore ∧
    submitRiskProfile s sender t 850 income 51 100 = .error .InvalidEmploymentYears ∧
    submitRiskProfile s sender t 850 income 50 101 = .error .InvalidDebtRatio ∧
    (∃ s' ev, submitRiskProfile s sender t 850 income 50 100 = .ok (s', ev)) := by
  unfold submitRiskProfile
  rw [hw, hns]
  refine ⟨?_, ?_, ?_, ?_⟩
  · rw [if_neg (by simp)]
    rw [if_pos (by omega)]
  · rw [if_neg (by simp), if_neg (by omega), if_pos (by omega)]
  · rw [if_neg (by simp), if_neg (by omega), if_neg (by omega), if_pos (by omega)]
  · rw [if_neg (by simp), if_neg (by omega), if_neg (by omega), if_neg (by omega),
      if_neg (by simp)]
    exact ⟨_, _, rfl⟩

/-- C7 witness: at the concrete active state, participant 5 at hour 10 with
income 123456 hits each range revert and the boundary acceptance. -/
theorem c7_witness :
    isAssessmentWindowActive activeS 36000 = true ∧
    ((activeS.assessments activeS.currentAssessmentId).profiles 5).hasSubmitted = false ∧
    123456 < UINT32_SIZE ∧
    (submitRiskProfile activeS 5 36000 851 123456 50 100 = .error .InvalidCreditScore ∧
      submitRiskProfile activeS 5 36000 850 123456 51 100 = .error .InvalidEmploymentYears ∧
      submitRiskProfile activeS 5 36000 850 123456 50 101 = .error .InvalidDebtRatio ∧
      (∃ s' ev, submitRiskProfile activeS 5 36000 850 123456 50 100 = .ok (s', ev))) :=
  ⟨rfl, rfl, by decide,
    c7_range_enforcement activeS 5 36000 123456 rfl rfl (by decide)⟩

theorem submit_errors_of_hasSubmitted (s : ContractState) (sender : Address)
    (hps : ((s.assessments s.currentAssessmentId).profiles sender).hasSubmitted = true) :
    ∀ t creditScore income employmentYears debtRatio,
      ∃ e, submitRiskProfile s sender t creditScore income employmentYears debtRatio
            = .error e := by
  intro t creditScore income employmentYears debtRatio
  unfold submitRiskProfile
  split
  · exact ⟨_, rfl⟩
  split
  · exact ⟨_, rfl⟩
  split
  · exact ⟨_, rfl⟩
  split
  · exact ⟨_, rfl⟩
  exact ⟨_, rfl⟩

theorem submit_duplicate_of_hasSubmitted (s : ContractState) (sender : Address)
    (hps : ((s.assessments s.currentAssessmentId).profiles sender).hasSubmitted = true) :
    ∀ t creditScore income employmentYears debtRatio,
      isAssessmentWindowActive s t = true →
      creditScore ≤ 850 → employmentYears ≤ 50 → debtRatio ≤ 100 →
      submitRiskProfile s sender t creditScore income employmentYears debtRatio
        = .error .ProfileAlreadySubmitted := by
  intro t creditScore income employmentYears debtRatio hw hcs hey hdr
  unfold submitRiskProfile
  rw [hw, if_neg (by simp), if_neg (by omega), if_neg (by omega), if_neg (by omega),
    if_pos hps]

/-- C8: a successful submitRiskProfile stores exactly the submitted data (all
four handles, the flag, the timestamp and the identity) under the sender in
the current cycle and leaves the cycle id unchanged; afterwards every
further submitRiskProfile call by the same sender in that cycle reverts -
with ProfileAlreadySubmitted whenever the window is open and the arguments
are in range - and a revert rolls back every effect, so the stored first
submission stays unchanged. -/
theorem c8_idempotent_submission (s : ContractState) (sender : Address)
    (t creditScore income employmentYears debtRatio : Nat)
    (s1 : ContractState) (ev1 : List Event)
    (h : submitRiskProfile s sender t creditScore income employmentYears debtRatio
          = .ok (s1, ev1)) :
    s1.currentAssessmentId = s.currentAssessmentId ∧
    (s1.assessments s1.currentAssessmentId).profiles sender =
      { encryptedCreditScore := creditScore, encryptedIncome := income,
        encryptedEmploymentYears := employmentYears, encryptedDebtRatio := debtRatio,
        hasSubmitted := true, timestamp := t, applicant := sender } ∧
    (∀ t' cs' inc' ey' dr',
      ∃ e, submitRiskProfile s1 sender t' cs' inc' ey' dr' = .error e) ∧
    (∀ t' cs' inc' ey' dr', isAssessmentWindowActive s1 t' = true →
      cs' ≤ 850 → ey' ≤ 50 → dr' ≤ 100 →
      submitRiskProfile s1 sender t' cs' inc' ey' dr'
        = .error .ProfileAlreadySubmitted) := by
  obtain ⟨-, -, -, -, -, hs1, -⟩ := submitRiskProfile_ok h
  have hps : ((s1.assessments s1.currentAssessmentId).profiles sender).hasSubmitted
      = true := by
    subst hs1
    simp
  refine ⟨by subst hs1; rfl, by subst hs1; simp, ?_, ?_⟩
  · exact submit_errors_of_hasSubmitted s1 sender hps
  · intro t' cs' inc' ey' dr' hw hcs hey hdr
    exact submit_duplicate_of_hasSubmitted s1 sender hps
      t' cs' inc' ey' dr' hw hcs hey hdr

/-- Poststate of the first submission of the C8 witness trace. -/
def c8S1 : ContractState :=
  stateOf (submitRiskProfile activeS 5 36000 850 1000 10 20) activeS

/-- C8 witness: at the concrete active state, participant 5 submits at hour
10, and the repeated submission at hour 10 reverts with
ProfileAlreadySubmitted. -/
theorem c8_witness :
    submitRiskProfile activeS 5 36000 850 1000 10 20 =
      .ok (c8S1, [Event.ProfileSubmitted 5 1]) ∧
    submitRiskProfile c8S1 5 36100 850 1000 10 20
      = .error .ProfileAlreadySubmitted := by
  have h : submitRiskProfile activeS 5 36000 850 1000 10 20 =
      .ok (c8S1, [Event.ProfileSubmitted 5 1]) := rfl
  exact ⟨h, (c8_idempotent_submission activeS 5 36000 850 1000 10 20 c8S1 _ h).2.2.2
    36100 850 1000 10 20 (by decide) (by decide) (by decide) (by decide)⟩

/-- C9: when a cycle with a submitted profile is completed by pause and then
restarted by startNewAssessment, the cycle identifier is unchanged and the
applicants list is reset to empty, but the per-participant profiles mapping
of that identifier is not cleared - so the earlier submitter still has
hasSubmitted set and any in-window, in-range resubmission reverts with
ProfileAlreadySubmitted even though the restarted participant list does not
contain the participant. -/
theorem c9_pause_restart_duplicate (s : ContractState)
    (p t creditScore income employmentYears debtRatio tp ts randThreshold : Nat)
    (s1 s2 s3 : ContractState) (ev1 ev2 ev3 : List Event)
    (h1 : submitRiskProfile s p t creditScore income employmentYears debtRatio
          = .ok (s1, ev1))
    (h2 : pauseCurrentAssessment s1 s1.owner tp = .ok (s2, ev2))
    (h3 : startNewAssessment s2 s2.owner ts randThreshold = .ok (s3, ev3)) :
    s3.currentAssessmentId = s.currentAssessmentId ∧
    (s3.assessments s3.currentAssessmentId).applicants = [] ∧
    ((s3.assessments s3.currentAssessmentId).profiles p).hasSubmitted = true ∧
    (∀ t' cs' inc' ey' dr', isAssessmentWindowActive s3 t' = true →
      cs' ≤ 850 → ey' ≤ 50 → dr' ≤ 100 →
      submitRiskProfile s3 p t' cs' inc' ey' dr'
        = .error .ProfileAlreadySubmitted) := by
  obtain ⟨-, -, -, -, -, hs1, -⟩ := submitRiskProfile_ok h1
  obtain ⟨-, hs2, -⟩ := pauseCurrentAssessment_ok h2
  obtain ⟨-, -, -, hs3, -⟩ := startNewAssessment_ok h3
  have hid : s3.currentAssessmentId = s.currentAssessmentId := by
    subst hs1; subst hs2; subst hs3; rfl
  have happ : (s3.assessments s3.currentAssessmentId).applicants = [] := by
    subst hs1; subst hs2; subst hs3; simp
  have hps : ((s3.assessments s3.currentAssessmentId).profiles p).hasSubmitted
      = true := by
    subst hs1; subst hs2; subst hs3; simp
  refine ⟨hid, happ, hps, ?_⟩
  intro t' cs' inc' ey' dr' hw hcs hey hdr
  exact submit_duplicate_of_hasSubmitted s3 p hps t' cs' inc' ey' dr' hw hcs hey hdr

/-- Poststates of the C9 witness trace: participant 5 submits at hour 10,
the owner pauses at hour 11 and restarts at hour 12. -/
def c9S1 : ContractState :=
  stateOf (submitRiskProfile activeS 5 36000 700 50000 5 30) activeS

/-- Poststate of the pause of the C9 witness trace. -/
def c9S2 : ContractState := stateOf (pauseCurrentAssessment c9S1 c9S1.owner 39600) c9S1

/-- Poststate of the restart of the C9 witness trace. -/
def c9S3 : ContractState := stateOf (startNewAssessment c9S2 c9S2.owner 43200 77) c9S2

/-- C9 witness: on the concrete trace, the restarted cycle keeps identifier
1, has an empty participant list, and rejects the resubmission of
participant 5 at hour 12 with ProfileAlreadySubmitted. -/
theorem c9_witness :
    submitRiskProfile activeS 5 36000 700 50000 5 30
      = .ok (c9S1, [Event.ProfileSubmitted 5 1]) ∧
    pauseCurrentAssessment c9S1 c9S1.owner 39600 = .ok (c9S2, []) ∧
    startNewAssessment c9S2 c9S2.owner 43200 77
      = .ok (c9S3, [Event.AssessmentStarted 1 43200]) ∧
    c9S3.currentAssessmentId = 1 ∧
    (c9S3.assessments 1).applicants = [] ∧
    submitRiskProfile c9S3 5 43260 700 50000 5 30
      = .error .ProfileAlreadySubmitted := by
  have h1 : submitRiskProfile activeS 5 36000 700 50000 5 30
      = .ok (c9S1, [Event.ProfileSubmitted 5 1]) := rfl
  have h2 : pauseCurrentAssessment c9S1 c9S1.owner 39600 = .ok (c9S2, []) := rfl
  have h3 : startNewAssessment c9S2 c9S2.owner 43200 77
      = .ok (c9S3, [Event.AssessmentStarted 1 43200]) := rfl
  have h := c9_pause_restart_duplicate activeS 5 36000 700 50000 5 30 39600 43200 77
    c9S1 c9S2 c9S3 _ _ _ h1 h2 h3
  exact ⟨h1, h2, h3, h.1, h.2.1,
    h.2.2.2 43260 700 50000 5 30 (by decide) (by decide) (by decide) (by decide)⟩

/-- C10: pauseCurrentAssessment called by the owner succeeds in every state,
emitting nothing: it marks the current record completed and stamps its end
time, changing nothing else; afterwards getAssessmentHistory reports that
cycle completed and checkApprovalStatus for it succeeds, returning the
stored approval flags.  In particular on a freshly deployed contract (no
cycle ever started, threshold not set) the pause completes the untouched
default record and approval lookup then returns false for every
participant. -/
theorem c10_pause_total (s : ContractState) (t : Nat) (deployer t0 tp : Nat) :
    (∃ s', pauseCurrentAssessment s s.owner t = .ok (s', []) ∧
      s'.currentAssessmentId = s.currentAssessmentId ∧
      s'.owner = s.owner ∧
      s'.assessments s.currentAssessmentId =
        { s.assessments s.currentAssessmentId with
          assessmentCompleted := true, endTime := t } ∧
      (∀ j, j ≠ s.currentAssessmentId → s'.assessments j = s.assessments j) ∧
      (getAssessmentHistory s' s.currentAssessmentId).assessmentCompleted = true ∧
      (∀ b, checkApprovalStatus s' s.currentAssessmentId b =
        .ok ((s.assessments s.currentAssessmentId).approvedApplicants b))) ∧
    (∀ b, ∃ s0, pauseCurrentAssessment (deploy deployer t0) deployer tp
        = .ok (s0, []) ∧
      (s0.assessments 1).thresholdSet = false ∧
      (s0.assessments 1).startTime = 0 ∧
      getAssessmentHistory s0 1 =
        { assessmentCompleted := true, finalRiskLevel := 0, startTime := 0,
          endTime := tp, applicantCount := 0 } ∧
      checkApprovalStatus s0 1 b = .ok false) := by
  constructor
  · refine ⟨setAssessment s s.currentAssessmentId
      { s.assessments s.currentAssessmentId with
        assessmentCompleted := true, endTime := t }, ?_, rfl, rfl, by simp, ?_, ?_, ?_⟩
    · unfold pauseCurrentAssessment
      rw [if_neg (by simp)]
    · intro j hj
      exact setAssessment_assessments_ne _ _ _ _ hj
    · simp [getAssessmentHistory]
    · intro b
      unfold checkApprovalStatus
      rw [if_neg (by simp)]
      simp
  · intro b
    refine ⟨setAssessment (deploy deployer t0) 1
      { (deploy deployer t0).assessments 1 with
        assessmentCompleted := true, endTime := tp }, ?_, ?_, ?_, ?_, ?_⟩
    · unfold pauseCurrentAssessment
      rw [if_neg (by simp [deploy])]
      rfl
    · simp [deploy, emptyAssessment]
    · simp [deploy, emptyAssessment]
    · simp [getAssessmentHistory, deploy, emptyAssessment]
    · unfold checkApprovalStatus
      rw [if_neg (by simp)]
      simp [deploy, emptyAssessment]

/-- C10 witness: on the contract deployed by owner 3 at time 9, pausing at
time 55 succeeds with the characterized poststate, and pausing the fresh
deployment at time 77 leaves an approval lookup of false for participant
6. -/
theorem c10_witness :
    (∃ s', pauseCurrentAssessment (deploy 3 9) (deploy 3 9).owner 55 = .ok (s', []) ∧
      s'.currentAssessmentId = (deploy 3 9).currentAssessmentId ∧
      s'.owner = (deploy 3 9).owner ∧
      s'.assessments (deploy 3 9).currentAssessmentId =
        { (deploy 3 9).assessments (deploy 3 9).currentAssessmentId with
          assessmentCompleted := true, endTime := 55 } ∧
      (∀ j, j ≠ (deploy 3 9).currentAssessmentId →
        s'.assessments j = (deploy 3 9).assessments j) ∧
      (getAssessmentHistory s' (deploy 3 9).currentAssessmentId).assessmentCompleted
        = true ∧
      (∀ b, checkApprovalStatus s' (deploy 3 9).currentAssessmentId b =
        .ok (((deploy 3 9).assessments
          (deploy 3 9).currentAssessmentId).approvedApplicants b))) ∧
    (∀ b, ∃ s0, pauseCurrentAssessment (deploy 3 9) 3 77 = .ok (s0, []) ∧
      (s0.assessments 1).thresholdSet = false ∧
      (s0.assessments 1).startTime = 0 ∧
      getAssessmentHistory s0 1 =
        { assessmentCompleted := true, finalRiskLevel := 0, startTime := 0,
          endTime := 77, applicantCount := 0 } ∧
      checkApprovalStatus s0 1 b = .ok false) :=
  c10_pause_total (deploy 3 9) 55 3 9 77
